import Mathlib

set_option maxRecDepth 10000

/-!
Shallow embedding of the core data model of the docktesting repository and
operations (fingerprint profile registry, header derivation, agent pool,
stealth-script synthesizer, and the detection classifier / aggregator of
`TestURL` and `main`), together with theorems settling the frozen claims.

Modelling conventions:
* Go `int`/`int64` fields are `Int`; Go `len` of a string (bytes of its UTF-8
  form) is `String.utf8ByteSize`.
* Go `map[string]string` values are modelled extensionally as
  `String → Option String` (Go map iteration order never influences the
  final key-to-value mapping of the operations embedded here).
* `strings.ToLower` is modelled per character with `Char.toLower` (the inputs
  relevant to the claims are ASCII, where the two coincide).
* Randomness (`rand.Intn n`) is modelled by passing the drawn number, with
  its range `< n` as a hypothesis where the code guarantees it.
-/

/-- Structure `BrowserProfile` from part_000: a complete browser fingerprint. -/
structure BrowserProfile where
  Name                : String
  UserAgent           : String
  Platform            : String
  VendorString        : String
  Language            : String
  TimeZone            : String
  ScreenWidth         : Int
  ScreenHeight        : Int
  WebGLVendor         : String
  WebGLRenderer       : String
  MaxTouchPoints      : Int
  DeviceMemory        : Int
  HardwareConcurrency : Int
  deriving DecidableEq, Repr

/-- Catalog `StealthProfiles` from part_000: the fixed catalog of browser profiles. -/
def StealthProfiles : List BrowserProfile := [
  { Name := "Windows Chrome 120",
    UserAgent := "Mozilla/5.0 (Windows NT 10.0; Win64; x64) AppleWebKit/537.36 (KHTML, like Gecko) Chrome/120.0.0.0 Safari/537.36",
    Platform := "Win32", VendorString := "Google Inc.", Language := "en-US",
    TimeZone := "America/New_York", ScreenWidth := 1920, ScreenHeight := 1080,
    WebGLVendor := "Google Inc. (Google)",
    WebGLRenderer := "ANGLE (Intel HD Graphics 630, OpenGL 4.1)",
    MaxTouchPoints := 0, DeviceMemory := 8, HardwareConcurrency := 8 },
  { Name := "MacOS Chrome 120",
    UserAgent := "Mozilla/5.0 (Macintosh; Intel Mac OS X 10_15_7) AppleWebKit/537.36 (KHTML, like Gecko) Chrome/120.0.0.0 Safari/537.36",
    Platform := "MacIntel", VendorString := "Google Inc.", Language := "en-US",
    TimeZone := "America/Los_Angeles", ScreenWidth := 1440, ScreenHeight := 900,
    WebGLVendor := "Apple Inc.", WebGLRenderer := "Apple M1",
    MaxTouchPoints := 0, DeviceMemory := 16, HardwareConcurrency := 8 },
  { Name := "MacOS M1 Chrome 120",
    UserAgent := "Mozilla/5.0 (Macintosh; Intel Mac OS X 10_15_7) AppleWebKit/537.36 (KHTML, like Gecko) Chrome/120.0.0.0 Safari/537.36",
    Platform := "MacIntel", VendorString := "Google Inc.", Language := "en-US",
    TimeZone := "America/Denver", ScreenWidth := 1680, ScreenHeight := 1050,
    WebGLVendor := "Apple Inc.",
    WebGLRenderer := "ANGLE (Apple, Apple M1, OpenGL 4.1)",
    MaxTouchPoints := 0, DeviceMemory := 16, HardwareConcurrency := 8 },
  { Name := "Linux Chrome 120",
    UserAgent := "Mozilla/5.0 (X11; Linux x86_64) AppleWebKit/537.36 (KHTML, like Gecko) Chrome/120.0.0.0 Safari/537.36",
    Platform := "Linux x86_64", VendorString := "Google Inc.", Language := "en-US",
    TimeZone := "Europe/London", ScreenWidth := 1920, ScreenHeight := 1080,
    WebGLVendor := "Google Inc. (Google)",
    WebGLRenderer := "ANGLE (Intel HD Graphics, OpenGL 4.1)",
    MaxTouchPoints := 0, DeviceMemory := 8, HardwareConcurrency := 4 },
  { Name := "Windows Edge 120",
    UserAgent := "Mozilla/5.0 (Windows NT 10.0; Win64; x64) AppleWebKit/537.36 (KHTML, like Gecko) Chrome/120.0.0.0 Safari/537.36 Edg/120.0.0.0",
    Platform := "Win32", VendorString := "Google Inc.", Language := "en-US",
    TimeZone := "America/Chicago", ScreenWidth := 1920, ScreenHeight := 1080,
    WebGLVendor := "Google Inc. (Google)",
    WebGLRenderer := "ANGLE (NVIDIA GeForce RTX 3090, OpenGL 4.1)",
    MaxTouchPoints := 0, DeviceMemory := 16, HardwareConcurrency := 12 },
  { Name := "Windows Firefox 121",
    UserAgent := "Mozilla/5.0 (Windows NT 10.0; Win64; x64; rv:121.0) Gecko/20100101 Firefox/121.0",
    Platform := "Win32", VendorString := "", Language := "en-US",
    TimeZone := "America/New_York", ScreenWidth := 1920, ScreenHeight := 1080,
    WebGLVendor := "Google Inc. (Google)",
    WebGLRenderer := "ANGLE (NVIDIA GeForce GTX 1080, OpenGL 4.1)",
    MaxTouchPoints := 0, DeviceMemory := 8, HardwareConcurrency := 8 },
  { Name := "MacOS Firefox 121",
    UserAgent := "Mozilla/5.0 (Macintosh; Intel Mac OS X 10.15; rv:121.0) Gecko/20100101 Firefox/121.0",
    Platform := "MacIntel", VendorString := "", Language := "en-US",
    TimeZone := "America/Los_Angeles", ScreenWidth := 1440, ScreenHeight := 900,
    WebGLVendor := "Apple Inc.", WebGLRenderer := "Apple M1",
    MaxTouchPoints := 0, DeviceMemory := 16, HardwareConcurrency := 8 },
  { Name := "Linux Firefox 121",
    UserAgent := "Mozilla/5.0 (X11; Linux x86_64; rv:121.0) Gecko/20100101 Firefox/121.0",
    Platform := "Linux x86_64", VendorString := "", Language := "en-US",
    TimeZone := "Europe/Berlin", ScreenWidth := 1920, ScreenHeight := 1080,
    WebGLVendor := "Google Inc. (Google)",
    WebGLRenderer := "ANGLE (Intel Iris Xe Graphics, OpenGL 4.1)",
    MaxTouchPoints := 0, DeviceMemory := 8, HardwareConcurrency := 4 },
  { Name := "Windows Chrome 121",
    UserAgent := "Mozilla/5.0 (Windows NT 10.0; Win64; x64) AppleWebKit/537.36 (KHTML, like Gecko) Chrome/121.0.0.0 Safari/537.36",
    Platform := "Win32", VendorString := "Google Inc.", Language := "en-US",
    TimeZone := "America/New_York", ScreenWidth := 1920, ScreenHeight := 1080,
    WebGLVendor := "Google Inc. (Google)",
    WebGLRenderer := "ANGLE (Intel HD Graphics 630, OpenGL 4.1)",
    MaxTouchPoints := 0, DeviceMemory := 8, HardwareConcurrency := 8 },
  { Name := "MacOS Chrome 121",
    UserAgent := "Mozilla/5.0 (Macintosh; Intel Mac OS X 10_15_7) AppleWebKit/537.36 (KHTML, like Gecko) Chrome/121.0.0.0 Safari/537.36",
    Platform := "MacIntel", VendorString := "Google Inc.", Language := "en-US",
    TimeZone := "America/Los_Angeles", ScreenWidth := 1440, ScreenHeight := 900,
    WebGLVendor := "Apple Inc.", WebGLRenderer := "Apple M1",
    MaxTouchPoints := 0, DeviceMemory := 16, HardwareConcurrency := 8 }]

/-- The catalog entry `StealthProfiles[0]`, the fall-back result of
`GetProfileByName` when no name matches. -/
def defaultProfile : BrowserProfile := StealthProfiles.get ⟨0, by decide⟩

/-- Function `GetProfileByName` from part_000: first catalog entry whose `Name` equals
the argument, else `StealthProfiles[0]`. -/
def GetProfileByName (name : String) : BrowserProfile :=
  match StealthProfiles.find? (fun profile => profile.Name == name) with
  | some profile => profile
  | none => defaultProfile

/-- Function `GetProfilesByPlatform` from part_000: the catalog entries whose
`Platform` equals the argument, in catalog order. -/
def GetProfilesByPlatform (platform : String) : List BrowserProfile :=
  StealthProfiles.filter (fun p => p.Platform == platform)

/-- The distinct platform tags occurring in the catalog, in order of first
occurrence. -/
def platformTags : List String := (StealthProfiles.map (fun p => p.Platform)).dedup

/-- Claim C4: a name matching no catalog entry makes `GetProfileByName` return
the designated default profile (the first catalog entry) rather than failing;
a matching name returns the matching profile. -/
theorem c4_byName_fallback_and_match :
    (∀ name : String, (∀ p ∈ StealthProfiles, p.Name ≠ name) →
      GetProfileByName name = defaultProfile) ∧
    (∀ (name : String) (p : BrowserProfile), p ∈ StealthProfiles → p.Name = name →
      GetProfileByName name = p) := by
  constructor
  · intro name h
    unfold GetProfileByName
    have hnone : StealthProfiles.find? (fun profile => profile.Name == name) = none := by
      rw [List.find?_eq_none]
      intro x hx
      simpa using h x hx
    rw [hnone]
  · intro name p hp hname
    subst hname
    fin_cases hp <;> decide

/-- Witness for C4: a missing name falls back to the first catalog entry, the
exact name "Linux Chrome 120" returns its own entry. -/
theorem c4_witness :
    GetProfileByName "no such profile" = defaultProfile ∧
    GetProfileByName "Linux Chrome 120" = StealthProfiles.get ⟨3, by decide⟩ :=
  ⟨c4_byName_fallback_and_match.1 "no such profile" (by decide),
   c4_byName_fallback_and_match.2 "Linux Chrome 120"
     (StealthProfiles.get ⟨3, by decide⟩) (by decide) (by decide)⟩

/-- Claim C7: every platform tag occurring in the catalog yields a non-empty
`GetProfilesByPlatform` result, and the union of the results over all distinct
tags contains every catalog profile exactly once. -/
theorem c7_platform_partition :
    (∀ t ∈ platformTags, GetProfilesByPlatform t ≠ []) ∧
    List.Perm (platformTags.flatMap GetProfilesByPlatform) StealthProfiles ∧
    (∀ p ∈ StealthProfiles, (platformTags.flatMap GetProfilesByPlatform).count p = 1) :=
  ⟨by decide, by decide, by decide⟩

/-- Witness for C7: the tag "Win32" occurs in the catalog and yields a
non-empty result, and the first catalog entry occurs exactly once in the
union over all tags. -/
theorem c7_witness :
    GetProfilesByPlatform "Win32" ≠ [] ∧
    (platformTags.flatMap GetProfilesByPlatform).count defaultProfile = 1 :=
  ⟨c7_platform_partition.1 "Win32" (by decide),
   c7_platform_partition.2.2 defaultProfile (by decide)⟩

/-- A Go `map[string]string`, modelled extensionally by its key lookup. -/
def HeaderMap : Type := String → Option String

/-- Model of `make(map[string]string)`: the empty map. -/
def emptyMap : HeaderMap := fun _ => none

/-- Model of `m[k] = v`: map update. -/
def mapSet (m : HeaderMap) (k v : String) : HeaderMap :=
  fun x => if x = k then some v else m x

/-- Model of `for k, v := range src { dst[k] = v }`: copy every entry of `src` into
`dst` (the resulting lookup prefers `src`; the Go iteration order is irrelevant
to it because distinct keys are written independently). -/
def mapCopy (dst src : HeaderMap) : HeaderMap :=
  fun x => match src x with
  | some v => some v
  | none => dst x

/-- Function `generateRealisticHeaders` from part_000: the fixed header literal, with
the `Sec-Ch-Ua-Platform` value rewritten for the MacIntel and Linux x86_64
platform tags. -/
def generateRealisticHeaders (profile : BrowserProfile) : HeaderMap :=
  let headers : HeaderMap :=
    mapSet (mapSet (mapSet (mapSet (mapSet (mapSet (mapSet (mapSet (mapSet
      (mapSet (mapSet (mapSet (mapSet (mapSet (mapSet (mapSet emptyMap
      "User-Agent" profile.UserAgent)
      "Accept" "text/html,application/xhtml+xml,application/xml;q=0.9,image/webp,image/apng,*/*;q=0.8,application/signed-exchange;v=b3;q=0.7")
      "Accept-Language" profile.Language)
      "Accept-Encoding" "gzip, deflate, br")
      "Cache-Control" "max-age=0")
      "Sec-Fetch-Dest" "document")
      "Sec-Fetch-Mode" "navigate")
      "Sec-Fetch-Site" "none")
      "Sec-Fetch-User" "?1")
      "Upgrade-Insecure-Requests" "1")
      "Sec-Ch-Ua" "\"Not_A Brand\";v=\"8\", \"Chromium\";v=\"120\", \"Google Chrome\";v=\"120\"")
      "Sec-Ch-Ua-Mobile" "?0")
      "Sec-Ch-Ua-Platform" "\"Windows\"")
      "DNT" "1")
      "Connection" "keep-alive")
      "Pragma" "no-cache"
  if profile.Platform = "MacIntel" then
    mapSet headers "Sec-Ch-Ua-Platform" "\"macOS\""
  else if profile.Platform = "Linux x86_64" then
    mapSet headers "Sec-Ch-Ua-Platform" "\"Linux\""
  else
    headers

/-- Structure `AIAgent` from part_000. `LastActivity` is a timestamp, modelled as a
number; `Delay` is drawn from `rand.Intn(5000) + 2000` at construction. -/
structure AIAgent where
  ID           : String
  Profile      : BrowserProfile
  Headers      : HeaderMap
  Cookies      : HeaderMap
  RateLimit    : Int
  Delay        : Int
  RetryCount   : Int
  ProxyURL     : String := ""
  LastActivity : Nat := 0

/-- Function `NewAIAgentWithProfile` from part_000; `delayDraw` stands for the value
drawn by `rand.Intn(5000)`, reduced modulo 5000 to stay in its range. -/
def NewAIAgentWithProfile (id : String) (profile : BrowserProfile)
    (delayDraw : Nat) : AIAgent :=
  { ID := id
    Profile := profile
    Headers := generateRealisticHeaders profile
    Cookies := emptyMap
    RateLimit := 1
    Delay := Int.ofNat (delayDraw % 5000) + 2000
    RetryCount := 3 }

/-- Method `HeadersWithDefaults` from part_000, value level: start from an empty map,
copy the default headers of the agent, then copy the custom headers on top. -/
def HeadersWithDefaults (a : AIAgent) (customHeaders : HeaderMap) : HeaderMap :=
  let merged := emptyMap
  let merged := mapCopy merged a.Headers
  let merged := mapCopy merged customHeaders
  merged

/-- A heap of string maps: `next` is the next fresh reference, `maps` the
contents at each reference. Models the Go by-reference map values for the
frame-effect claim about `HeadersWithDefaults`. -/
structure MapHeap where
  next : Nat
  maps : Nat → HeaderMap

/-- Model of `make(map[string]string)` at the heap level: allocate a fresh empty map. -/
def allocMap (σ : MapHeap) : MapHeap × Nat :=
  ({ next := σ.next + 1
     maps := fun r => if r = σ.next then emptyMap else σ.maps r }, σ.next)

/-- Model of `for k, v := range src { dst[k] = v }` at the heap level: write all
entries of the value `src` into the map at reference `r`. -/
def writeAll (σ : MapHeap) (r : Nat) (src : HeaderMap) : MapHeap :=
  { σ with maps := fun x => if x = r then mapCopy (σ.maps x) src else σ.maps x }

/-- Method `HeadersWithDefaults` from part_000 at the heap level: the
default headers live at `headersRef`; the method allocates a fresh `merged`
map, copies the defaults into it, then the custom headers, and returns the
reference of the merged map. -/
def HeadersWithDefaultsRef (σ : MapHeap) (headersRef : Nat)
    (customHeaders : HeaderMap) : MapHeap × Nat :=
  let (σ₁, merged) := allocMap σ
  let σ₂ := writeAll σ₁ merged (σ₁.maps headersRef)
  let σ₃ := writeAll σ₂ merged customHeaders
  (σ₃, merged)

/-- Structure `BrowserPool` from part_000. `Agents` is a Go map keyed by agent ID,
modelled as an association list with Go map insert semantics (replace on an
existing key, else append); `RateLimiter` timestamps are numbers. -/
structure BrowserPool where
  Agents      : List (String × AIAgent)
  MaxAgents   : Int
  RateLimiter : String → Option Nat

/-- Function `NewBrowserPool` from part_000. -/
def NewBrowserPool (maxAgents : Int) : BrowserPool :=
  { Agents := [], MaxAgents := maxAgents, RateLimiter := fun _ => none }

/-- Go map insert on the association-list model: replace the entry of an
existing key, else append a new entry. -/
def assocInsert (l : List (String × AIAgent)) (k : String) (a : AIAgent) :
    List (String × AIAgent) :=
  match l with
  | [] => [(k, a)]
  | (k₀, a₀) :: rest =>
      if k₀ = k then (k, a) :: rest else (k₀, a₀) :: assocInsert rest k a

/-- Method `BrowserPool.AddAgent` from part_000: reject when the pool already holds
`MaxAgents` or more agents, else insert keyed by the ID of the agent. Returns the
resulting pool and the error (`some` message on rejection, as
`fmt.Errorf("pool is full (max %d agents)", ...)`). -/
def AddAgent (bp : BrowserPool) (agent : AIAgent) : BrowserPool × Option String :=
  if (bp.Agents.length : Int) ≥ bp.MaxAgents then
    (bp, some ("pool is full (max " ++ toString bp.MaxAgents ++ " agents)"))
  else
    ({ bp with Agents := assocInsert bp.Agents agent.ID agent }, none)

/-- The iteration of `BrowserPool.GetRandomAgent`: walk the agents, counting
`idx` down, and return the agent reached at zero (`none` models the trailing
`return nil`). -/
def randomLoop : List (String × AIAgent) → Nat → Option AIAgent
  | [], _ => none
  | (_, a) :: rest, idx => if idx = 0 then some a else randomLoop rest (idx - 1)

/-- Method `BrowserPool.GetRandomAgent` from part_000; `idx` stands for the value
drawn by `rand.Intn(len(bp.Agents))`. -/
def GetRandomAgent (bp : BrowserPool) (idx : Nat) : Option AIAgent :=
  if bp.Agents.length = 0 then none
  else randomLoop bp.Agents idx

/-- A concrete agent built over the first catalog profile (whose derived
default headers carry `Accept-Language: en-US`), used by witnesses. -/
def sampleAgent : AIAgent := NewAIAgentWithProfile "agent-1" defaultProfile 0

/-- A pool holding `sampleAgent` and whose capacity ceiling is already
reached, used by witnesses. -/
def fullPool : BrowserPool :=
  { Agents := [("agent-1", sampleAgent)], MaxAgents := 1,
    RateLimiter := fun _ => none }

/-- Claim C5: merging an override into the derived default headers of an agent
depends only on the stored defaults and the override (deterministic), the
override wins on every key collision, and in particular the first catalog
profile has defaults holding `Accept-Language: en-US` yet merging the override
`Accept-Language: fr-FR` yields `fr-FR`. -/
theorem c5_header_merge_override_wins :
    (∀ (a b : AIAgent) (ov : HeaderMap), a.Headers = b.Headers →
      HeadersWithDefaults a ov = HeadersWithDefaults b ov) ∧
    (∀ (a : AIAgent) (ov : HeaderMap) (k v : String), ov k = some v →
      HeadersWithDefaults a ov k = some v) ∧
    sampleAgent.Headers "Accept-Language" = some "en-US" ∧
    HeadersWithDefaults sampleAgent (mapSet emptyMap "Accept-Language" "fr-FR")
      "Accept-Language" = some "fr-FR" := by
  refine ⟨?_, ?_, by decide, by decide⟩
  · intro a b ov h
    simp [HeadersWithDefaults, h]
  · intro a ov k v h
    simp [HeadersWithDefaults, mapCopy, h]

/-- Witness for C5: the override-wins part applied to the concrete agent and
the concrete `fr-FR` override. -/
theorem c5_witness :
    HeadersWithDefaults sampleAgent (mapSet emptyMap "Accept-Language" "fr-FR")
      "Accept-Language" = some "fr-FR" :=
  c5_header_merge_override_wins.2.1 sampleAgent
    (mapSet emptyMap "Accept-Language" "fr-FR") "Accept-Language" "fr-FR"
    (by decide)

/-- Claim C9: `HeadersWithDefaults` returns a freshly allocated map (its
reference differs from the stored `Headers` reference of the agent), the stored
default headers are left unchanged even when the override redefines default
keys, and the fresh map holds exactly the value-level merge. -/
theorem c9_headers_merge_frame :
    ∀ (σ : MapHeap) (headersRef : Nat) (ov : HeaderMap),
      headersRef < σ.next →
      (HeadersWithDefaultsRef σ headersRef ov).2 ≠ headersRef ∧
      (HeadersWithDefaultsRef σ headersRef ov).1.maps headersRef
        = σ.maps headersRef ∧
      (HeadersWithDefaultsRef σ headersRef ov).1.maps
          (HeadersWithDefaultsRef σ headersRef ov).2
        = mapCopy (mapCopy emptyMap (σ.maps headersRef)) ov := by
  intro σ r ov h
  have hne : r ≠ σ.next := Nat.ne_of_lt h
  refine ⟨fun hc => hne hc.symm, ?_, ?_⟩
  · simp [HeadersWithDefaultsRef, allocMap, writeAll, hne]
  · simp [HeadersWithDefaultsRef, allocMap, writeAll, hne]

/-- Witness for C9: on a one-reference heap whose stored defaults live at
reference 0, the merge leaves reference 0 untouched and returns the
content at reference 1 as the value-level merge. -/
theorem c9_witness :
    (HeadersWithDefaultsRef ⟨1, fun _ => emptyMap⟩ 0 emptyMap).2 ≠ 0 ∧
    (HeadersWithDefaultsRef ⟨1, fun _ => emptyMap⟩ 0 emptyMap).1.maps 0
      = (⟨1, fun _ => emptyMap⟩ : MapHeap).maps 0 ∧
    (HeadersWithDefaultsRef ⟨1, fun _ => emptyMap⟩ 0 emptyMap).1.maps
        (HeadersWithDefaultsRef ⟨1, fun _ => emptyMap⟩ 0 emptyMap).2
      = mapCopy (mapCopy emptyMap ((⟨1, fun _ => emptyMap⟩ : MapHeap).maps 0))
          emptyMap :=
  c9_headers_merge_frame ⟨1, fun _ => emptyMap⟩ 0 emptyMap (by decide)

/-- Claim C6: inserting into a pool whose size equals its capacity ceiling is
rejected with an error and the pool (contents and size) is unchanged. -/
theorem c6_pool_capacity_reject :
    ∀ (bp : BrowserPool) (agent : AIAgent),
      (bp.Agents.length : Int) = bp.MaxAgents →
      (AddAgent bp agent).1 = bp ∧ (AddAgent bp agent).2.isSome = true := by
  intro bp agent h
  have hge : (bp.Agents.length : Int) ≥ bp.MaxAgents := h.ge
  simp [AddAgent, hge]

/-- Witness for C6: a pool of capacity 1 holding one agent rejects a further
insertion unchanged. -/
theorem c6_witness :
    (AddAgent fullPool sampleAgent).1 = fullPool ∧
    (AddAgent fullPool sampleAgent).2.isSome = true :=
  c6_pool_capacity_reject fullPool sampleAgent (by decide)

/-- The loop of `GetRandomAgent` hits a member of the list whenever the drawn
index is in range. -/
theorem randomLoop_mem :
    ∀ (l : List (String × AIAgent)) (idx : Nat), idx < l.length →
      ∃ a, randomLoop l idx = some a ∧ ∃ k, (k, a) ∈ l := by
  intro l
  induction l with
  | nil => intro idx h; simp at h
  | cons hd tl ih =>
    intro idx h
    obtain ⟨k, a⟩ := hd
    by_cases h0 : idx = 0
    · subst h0
      exact ⟨a, by simp [randomLoop], ⟨k, by simp⟩⟩
    · have hlt : idx - 1 < tl.length := by
        simp only [List.length_cons] at h
        omega
      obtain ⟨a₀, ha₀, k₀, hk₀⟩ := ih (idx - 1) hlt
      exact ⟨a₀, by simp [randomLoop, h0, ha₀], ⟨k₀, by simp [hk₀]⟩⟩

/-- Claim C10: `GetRandomAgent` returns `nil` exactly on the empty pool; on a
non-empty pool (with the drawn index in the range `rand.Intn` guarantees) it
returns an agent that is a member of the pool. -/
theorem c10_random_member :
    (∀ (bp : BrowserPool) (idx : Nat), bp.Agents = [] →
      GetRandomAgent bp idx = none) ∧
    (∀ (bp : BrowserPool) (idx : Nat), idx < bp.Agents.length →
      ∃ a, GetRandomAgent bp idx = some a ∧ ∃ k, (k, a) ∈ bp.Agents) := by
  constructor
  · intro bp idx h
    simp [GetRandomAgent, h]
  · intro bp idx h
    have hne : ¬ bp.Agents.length = 0 := by omega
    simpa [GetRandomAgent, hne] using randomLoop_mem bp.Agents idx h

/-- Witness for C10: the empty pool yields `none`; the one-agent pool yields
an agent. -/
theorem c10_witness :
    GetRandomAgent (NewBrowserPool 1) 0 = none ∧
    (GetRandomAgent fullPool 0).isSome = true := by
  constructor
  · exact c10_random_member.1 (NewBrowserPool 1) 0 rfl
  · obtain ⟨a, ha, -⟩ := c10_random_member.2 fullPool 0 (by decide)
    rw [ha]
    rfl

/-- Structure `TestResult` from part_003. -/
structure TestResult where
  URL            : String
  Title          : String
  ContentLength  : Nat
  HasCloudflare  : Bool
  Success        : Bool
  ErrorMessage   : String
  ContentSnippet : String
  deriving DecidableEq, Repr

/-- List `cfIndicators` from part_003: the fixed challenge-signature set. -/
def cfIndicators : List String :=
  ["cloudflare", "challenge", "checking your browser", "error 1020",
   "please wait", "ray id", "cf-challenge", "cf-chl", "just a moment"]

/-- Model of `strings.ToLower`, per character (coincides with Go on ASCII input). -/
def goToLower (s : String) : String := String.mk (s.data.map Char.toLower)

/-- Whether `sub` is a prefix of `s`, character by character. -/
def prefixCheck : List Char → List Char → Bool
  | [], _ => true
  | _ :: _, [] => false
  | a :: as, b :: bs => a == b && prefixCheck as bs

/-- Whether `sub` occurs contiguously somewhere in `s`. -/
def listContains : List Char → List Char → Bool
  | s, sub =>
    prefixCheck sub s ||
    match s with
    | [] => false
    | _ :: t => listContains t sub

/-- Model of `strings.Contains(s, sub)`: `sub` occurs as a substring of `s`. -/
def stringsContains (s sub : String) : Bool := listContains s.toList sub.toList

/-- The classification portion of `TestURL` from part_003 (lines 647-692), on
the error-free path: record title and content length, scan the lower-cased
body for any challenge signature, declare success only without signatures and
with more than 500 bytes of body and a non-empty title, and keep a snippet
(the byte slice `bodyHTML[:300]` is modelled as a character slice). -/
def classifyResult (testURL title bodyHTML : String) : TestResult :=
  let hasCF : Bool := cfIndicators.any (fun ind => stringsContains (goToLower bodyHTML) ind)
  let success : Bool :=
    !hasCF && decide (500 < bodyHTML.utf8ByteSize) && decide (0 < title.utf8ByteSize)
  { URL := testURL
    Title := title
    ContentLength := bodyHTML.utf8ByteSize
    HasCloudflare := hasCF
    Success := success
    ErrorMessage := ""
    ContentSnippet :=
      if 300 < bodyHTML.utf8ByteSize then bodyHTML.take 300 else bodyHTML }

/-- A string has positive UTF-8 byte length exactly when it is non-empty. -/
theorem utf8ByteSize_pos_iff (s : String) : 0 < s.utf8ByteSize ↔ s ≠ "" := by
  obtain ⟨data⟩ := s
  cases data with
  | nil => simp [String.utf8ByteSize, String.utf8ByteSize.go]
  | cons c cs =>
    constructor
    · intro _ h
      exact List.noConfusion (congrArg String.data h)
    · intro _
      show 0 < String.utf8ByteSize.go (c :: cs)
      calc 0 < c.utf8Size := Char.utf8Size_pos c
        _ ≤ String.utf8ByteSize.go cs + c.utf8Size := Nat.le_add_left _ _

/-- Claim C1 counterexample: the signature "just a moment" occurs
case-insensitively in the title "Just a moment", yet the classifier, which
scans only the body, reports no challenge markers. -/
theorem c1_counterexample :
    "just a moment" ∈ cfIndicators ∧
    stringsContains (goToLower "Just a moment") "just a moment" = true ∧
    (classifyResult "https://t/" "Just a moment" "hello").HasCloudflare = false := by
  decide

/-- Claim C1 (amended): the classifier lower-cases the body only; if any
signature of the fixed set occurs as a case-insensitive substring of the
body, the outcome has challenge markers and no success, regardless of the
body length and of the title; in particular a body containing "checking
your browser" in any case always yields that outcome. -/
theorem c1_body_signature_blocks :
    ∀ (u title body : String),
      ((∃ ind ∈ cfIndicators, stringsContains (goToLower body) ind = true) →
        (classifyResult u title body).HasCloudflare = true ∧
        (classifyResult u title body).Success = false) ∧
      (stringsContains (goToLower body) "checking your browser" = true →
        (classifyResult u title body).HasCloudflare = true ∧
        (classifyResult u title body).Success = false) := by
  intro u title body
  have main : (∃ ind ∈ cfIndicators, stringsContains (goToLower body) ind = true) →
      (classifyResult u title body).HasCloudflare = true ∧
      (classifyResult u title body).Success = false := by
    intro hex
    have hcf : (cfIndicators.any fun ind => stringsContains (goToLower body) ind) = true :=
      List.any_eq_true.mpr hex
    simp [classifyResult, hcf]
  refine ⟨main, fun h => main ⟨"checking your browser", by decide, h⟩⟩

/-- Witness for C1 (amended): a body carrying "CHECKING Your Browser" is
classified as blocked and unsuccessful. -/
theorem c1_witness :
    (classifyResult "https://t/" "T" "x CHECKING Your Browser x").HasCloudflare = true ∧
    (classifyResult "https://t/" "T" "x CHECKING Your Browser x").Success = false :=
  (c1_body_signature_blocks "https://t/" "T" "x CHECKING Your Browser x").2 (by decide)

/-- Claim C2: with no challenge signature in the body, the classifier never
reports challenge markers and succeeds exactly when the title is non-empty
and the body exceeds 500 bytes; a 1000-byte body with non-empty title
succeeds, a 10-byte body yields the indeterminate state. -/
theorem c2_success_iff :
    ∀ (u title body : String),
      (∀ ind ∈ cfIndicators, stringsContains (goToLower body) ind = false) →
      (classifyResult u title body).HasCloudflare = false ∧
      ((classifyResult u title body).Success = true ↔
        (title ≠ "" ∧ 500 < body.utf8ByteSize)) ∧
      (body.utf8ByteSize = 1000 → title ≠ "" →
        (classifyResult u title body).Success = true) ∧
      (body.utf8ByteSize = 10 →
        (classifyResult u title body).Success = false ∧
        (classifyResult u title body).HasCloudflare = false) := by
  intro u title body hno
  have hcf : (cfIndicators.any fun ind => stringsContains (goToLower body) ind) = false := by
    rw [List.any_eq_false]
    intro ind hind
    simp [hno ind hind]
  have hiff : (classifyResult u title body).Success = true ↔
      (title ≠ "" ∧ 500 < body.utf8ByteSize) := by
    simp only [classifyResult, hcf, Bool.not_false, Bool.true_and, Bool.and_eq_true,
      decide_eq_true_eq]
    rw [← utf8ByteSize_pos_iff]
    tauto
  refine ⟨by simp [classifyResult, hcf], hiff, ?_, ?_⟩
  · intro h1000 htitle
    exact hiff.mpr ⟨htitle, by omega⟩
  · intro h10
    refine ⟨?_, by simp [classifyResult, hcf]⟩
    rw [Bool.eq_false_iff]
    intro hs
    have := (hiff.mp hs).2
    omega

/-- Witness for C2: a 1000-byte signature-free body with non-empty title
succeeds; a 10-byte one is indeterminate. -/
theorem c2_witness :
    (classifyResult "https://t/" "T" (String.mk (List.replicate 1000 'b'))).Success = true ∧
    (classifyResult "https://t/" "T" "bbbbbbbbbb").Success = false ∧
    (classifyResult "https://t/" "T" "bbbbbbbbbb").HasCloudflare = false := by
  refine ⟨?_, ?_, ?_⟩
  · exact (c2_success_iff "https://t/" "T" (String.mk (List.replicate 1000 'b'))
      (by decide)).2.2.1 (by decide) (by decide)
  · exact ((c2_success_iff "https://t/" "T" "bbbbbbbbbb" (by decide)).2.2.2 (by decide)).1
  · exact ((c2_success_iff "https://t/" "T" "bbbbbbbbbb" (by decide)).2.2.2 (by decide)).2

/-- One step of the summary loop of `main` from part_003 (lines 800-813): an
outcome with an error message counts as errored, else a challenge-marker
outcome counts as blocked, else a successful outcome counts as succeeded,
else the outcome is the indeterminate "❓" state. The accumulator is
(succeeded, blocked, errored, indeterminate). -/
def summaryStep (acc : Nat × Nat × Nat × Nat) (r : TestResult) :
    Nat × Nat × Nat × Nat :=
  if r.ErrorMessage ≠ "" then (acc.1, acc.2.1, acc.2.2.1 + 1, acc.2.2.2)
  else if r.HasCloudflare then (acc.1, acc.2.1 + 1, acc.2.2.1, acc.2.2.2)
  else if r.Success then (acc.1 + 1, acc.2.1, acc.2.2.1, acc.2.2.2)
  else (acc.1, acc.2.1, acc.2.2.1, acc.2.2.2 + 1)

/-- The summary fold of `main` from part_003 over an ordered sequence of
outcomes. -/
def summaryCounts (results : List TestResult) : Nat × Nat × Nat × Nat :=
  results.foldl summaryStep (0, 0, 0, 0)

/-- The errored category of the summary loop. -/
def isErrored (r : TestResult) : Bool := r.ErrorMessage != ""

/-- The blocked category of the summary loop. -/
def isBlocked (r : TestResult) : Bool := (r.ErrorMessage == "") && r.HasCloudflare

/-- The succeeded category of the summary loop. -/
def isSucceeded (r : TestResult) : Bool :=
  (r.ErrorMessage == "") && !r.HasCloudflare && r.Success

/-- The indeterminate category of the summary loop. -/
def isIndeterminate (r : TestResult) : Bool :=
  (r.ErrorMessage == "") && !r.HasCloudflare && !r.Success

/-- The summary fold computes the occurrence count of each of the four
mutually exclusive categories. -/
theorem summaryCounts_foldl (l : List TestResult) :
    ∀ acc : Nat × Nat × Nat × Nat,
      l.foldl summaryStep acc =
        (acc.1 + l.countP isSucceeded, acc.2.1 + l.countP isBlocked,
         acc.2.2.1 + l.countP isErrored, acc.2.2.2 + l.countP isIndeterminate) := by
  induction l with
  | nil => intro acc; simp
  | cons r t ih =>
    intro acc
    rw [List.foldl_cons, ih]
    simp only [List.countP_cons]
    by_cases he : r.ErrorMessage = ""
    · by_cases hcf : r.HasCloudflare = true
      · simp [summaryStep, isSucceeded, isBlocked, isErrored, isIndeterminate,
          he, hcf, Prod.ext_iff]
        omega
      · by_cases hs : r.Success = true
        · simp [summaryStep, isSucceeded, isBlocked, isErrored, isIndeterminate,
            he, hcf, hs, Prod.ext_iff]
          omega
        · simp [summaryStep, isSucceeded, isBlocked, isErrored, isIndeterminate,
            he, hcf, hs, Prod.ext_iff]
          omega
    · simp [summaryStep, isSucceeded, isBlocked, isErrored, isIndeterminate,
        he, Prod.ext_iff]
      omega

/-- Each outcome falls in exactly one category, so the four counts sum to the
sequence length. -/
theorem countP_categories_partition (l : List TestResult) :
    l.countP isSucceeded + l.countP isBlocked + l.countP isErrored +
      l.countP isIndeterminate = l.length := by
  induction l with
  | nil => simp
  | cons r t ih =>
    simp only [List.countP_cons, List.length_cons]
    by_cases he : r.ErrorMessage = ""
    · by_cases hcf : r.HasCloudflare = true
      · simp [isSucceeded, isBlocked, isErrored, isIndeterminate, he, hcf]
        omega
      · by_cases hs : r.Success = true
        · simp [isSucceeded, isBlocked, isErrored, isIndeterminate, he, hcf, hs]
          omega
        · simp [isSucceeded, isBlocked, isErrored, isIndeterminate, he, hcf, hs]
          omega
    · simp [isSucceeded, isBlocked, isErrored, isIndeterminate, he]
      omega

/-- Claim C3: folding outcomes through the summary produces category counts
whose sum is the sequence length, and permuting the sequence leaves the
counts unchanged. -/
theorem c3_aggregation :
    ∀ l : List TestResult,
      ((summaryCounts l).1 + (summaryCounts l).2.1 + (summaryCounts l).2.2.1 +
        (summaryCounts l).2.2.2 = l.length) ∧
      (∀ l' : List TestResult, List.Perm l l' → summaryCounts l = summaryCounts l') := by
  intro l
  constructor
  · rw [summaryCounts, summaryCounts_foldl]
    simpa using countP_categories_partition l
  · intro l' hperm
    rw [summaryCounts, summaryCounts, summaryCounts_foldl, summaryCounts_foldl,
      hperm.countP_eq isSucceeded, hperm.countP_eq isBlocked,
      hperm.countP_eq isErrored, hperm.countP_eq isIndeterminate]

/-- A concrete errored outcome. -/
def outcomeErr : TestResult :=
  { URL := "https://a/", Title := "", ContentLength := 0, HasCloudflare := false,
    Success := false, ErrorMessage := "context deadline exceeded",
    ContentSnippet := "" }

/-- A concrete blocked outcome. -/
def outcomeBlk : TestResult :=
  { URL := "https://b/", Title := "Just a moment...", ContentLength := 6000,
    HasCloudflare := true, Success := false, ErrorMessage := "",
    ContentSnippet := "" }

/-- A concrete successful outcome. -/
def outcomeOk : TestResult :=
  { URL := "https://c/", Title := "Example", ContentLength := 6000,
    HasCloudflare := false, Success := true, ErrorMessage := "",
    ContentSnippet := "" }

/-- Witness for C3: on a concrete three-outcome run the counts sum to 3, and
swapping two outcomes leaves the counts unchanged. -/
theorem c3_witness :
    ((summaryCounts [outcomeErr, outcomeBlk, outcomeOk]).1 +
      (summaryCounts [outcomeErr, outcomeBlk, outcomeOk]).2.1 +
      (summaryCounts [outcomeErr, outcomeBlk, outcomeOk]).2.2.1 +
      (summaryCounts [outcomeErr, outcomeBlk, outcomeOk]).2.2.2 = 3) ∧
    summaryCounts [outcomeErr, outcomeBlk] = summaryCounts [outcomeBlk, outcomeErr] :=
  ⟨(c3_aggregation [outcomeErr, outcomeBlk, outcomeOk]).1,
   (c3_aggregation [outcomeErr, outcomeBlk]).2 [outcomeBlk, outcomeErr]
     (List.Perm.swap outcomeBlk outcomeErr [])⟩

/-- Structure `StealthConfig` from part_003. `DevicePixelRatio` is a Go `float64`,
modelled as an exact rational. -/
structure StealthConfig where
  UserAgent        : String
  Platform         : String
  VendorString     : String
  Language         : String
  TimeZoneID       : String
  DevicePixelRatio : Rat
  ScreenWidth      : Int
  ScreenHeight     : Int
  WebGLVendor      : String
  WebGLRenderer    : String
  MaxTouchPoints   : Int
  HasMediaDevices  : Bool
  HasGeolocation   : Bool

/-- Function `DefaultStealthConfig` from part_003. -/
def DefaultStealthConfig : StealthConfig :=
  { UserAgent := "Mozilla/5.0 (Windows NT 10.0; Win64; x64) AppleWebKit/537.36 (KHTML, like Gecko) Chrome/120.0.0.0 Safari/537.36"
    Platform := "Win32"
    VendorString := "Google Inc."
    Language := "en-US"
    TimeZoneID := "America/New_York"
    DevicePixelRatio := 1
    ScreenWidth := 1920
    ScreenHeight := 1080
    WebGLVendor := "Google Inc. (Google)"
    WebGLRenderer := "ANGLE (Intel HD Graphics 630, OpenGL 4.1)"
    MaxTouchPoints := 0
    HasMediaDevices := true
    HasGeolocation := true }

/-- Verb `%.1f` of Sprintf on the rational model: one digit after the decimal
point (rounding mode differences from the Go float formatting do not affect
the determinism claim). -/
def formatFixed1 (q : Rat) : String :=
  let n : Int := round (q * 10)
  (if n < 0 then "-" else "") ++ toString (n.natAbs / 10) ++ "." ++ toString (n.natAbs % 10)

/-- Model of `fmt.Sprintf` on a fixed template, given as the chunks between verbs and
the argument list: chunks and arguments alternate. -/
def sprintfFill : List String → List String → String
  | c :: cs, a :: as => c ++ a ++ sprintfFill cs as
  | c :: cs, [] => c ++ sprintfFill cs []
  | [], _ => ""
/-- The fixed script template of `BuildStealthScript` (part_003 lines 56-580),
    split at the 15 Sprintf verbs; chunk i precedes argument i. Braces and
    apostrophes of the JavaScript text are written as hex escapes. -/
def stealthChunks : List String := [
  "\n(() => \x7b\n    \x27use strict\x27;\n    \n    // ============================================\n    // 1. WEBDRIVER DETECTION REMOVAL\n    // ============================================\n    delete Object.getPrototypeOf(navigator).webdriver;\n    \n    // Additional chrome automation flags\n    const originalDescriptor = Object.getOwnPropertyDescriptor(navigator, \x27webdriver\x27);\n    if (originalDescriptor && originalDescriptor.configurable) \x7b\n        Object.defineProperty(navigator, \x27webdriver\x27, \x7b\n            get: () => false,\n            set: () => \x7b\x7d,\n            configurable: false,\n            enumerable: false\n        \x7d);\n    \x7d\n    \n    // ============================================\n    // 2. USER AGENT SPOOFING\n    // ============================================\n    const userAgent = \x27",
  "\x27;\n    Object.defineProperty(navigator, \x27userAgent\x27, \x7b\n        get: () => userAgent,\n        enumerable: true,\n        configurable: false\n    \x7d);\n    \n    Object.defineProperty(navigator, \x27appVersion\x27, \x7b\n        get: () => userAgent.substring(userAgent.indexOf(\x27/\x27) + 1),\n        enumerable: true,\n        configurable: false\n    \x7d);\n    \n    // ============================================\n    // 3. PLATFORM AND VENDOR\n    // ============================================\n    Object.defineProperty(navigator, \x27platform\x27, \x7b\n        get: () => \x27",
  "\x27,\n        enumerable: true,\n        configurable: false\n    \x7d);\n    \n    Object.defineProperty(navigator, \x27vendor\x27, \x7b\n        get: () => \x27",
  "\x27,\n        enumerable: true,\n        configurable: false\n    \x7d);\n    \n    // ============================================\n    // 4. PLUGIN ARRAY MOCKING (Comprehensive)\n    // ============================================\n    const pluginData = [\n        \x7b \n            name: \x27Chrome PDF Plugin\x27,\n            filename: \x27internal-pdf-viewer\x27,\n            description: \x27Portable Document Format (PDF)\x27\n        \x7d,\n        \x7b \n            name: \x27Chrome PDF Viewer\x27,\n            filename: \x27mhjfbmdgcfjbbpaeojofohoefgiehjai\x27,\n            description: \x27Portable Document Format\x27\n        \x7d,\n        \x7b \n            name: \x27Native Client Executable\x27,\n            filename: \x27internal-nacl-plugin\x27,\n            description: \x27\x27\n        \x7d\n    ];\n    \n    const mockPluginArray = () => \x7b\n        const pluginArray = Object.create(PluginArray.prototype);\n        \n        Object.defineProperty(pluginArray, \x27length\x27, \x7b\n            value: pluginData.length,\n            writable: false,\n            enumerable: false,\n            configurable: false\n        \x7d);\n        \n        pluginData.forEach((data, index) => \x7b\n            const plugin = Object.create(Plugin.prototype);\n            \n            Object.defineProperties(plugin, \x7b\n                name: \x7b\n                    value: data.name,\n                    writable: false,\n                    enumerable: true,\n                    configurable: false\n                \x7d,\n                filename: \x7b\n                    value: data.filename,\n                    writable: false,\n                    enumerable: true,\n                    configurable: false\n                \x7d,\n                description: \x7b\n                    value: data.description,\n                    writable: false,\n                    enumerable: true,\n                    configurable: false\n                \x7d,\n                length: \x7b\n                    value: 1,\n                    writable: false,\n                    enumerable: false,\n                    configurable: false\n                \x7d,\n                item: \x7b\n                    value: () => plugin,\n                    writable: false,\n                    enumerable: false,\n                    configurable: false\n                \x7d\n            \x7d);\n            \n            Object.defineProperty(pluginArray, index, \x7b\n                value: plugin,\n                writable: false,\n                enumerable: true,\n                configurable: false\n            \x7d);\n        \x7d);\n        \n        Object.defineProperty(pluginArray, \x27namedItem\x27, \x7b\n            value: (name) => \x7b\n                return pluginData.find(p => p.name === name) || null;\n            \x7d,\n            writable: false,\n            enumerable: false,\n            configurable: false\n        \x7d);\n        \n        return pluginArray;\n    \x7d;\n    \n    Object.defineProperty(navigator, \x27plugins\x27, \x7b\n        get: mockPluginArray,\n        enumerable: true,\n        configurable: false\n    \x7d);\n    \n    // ============================================\n    // 5. MIME TYPES MOCKING\n    // ============================================\n    const mimeTypes = [\n        \x7b\n            type: \x27application/pdf\x27,\n            suffixes: \x27pdf\x27,\n            description: \x27Portable Document Format\x27,\n            enabledPlugin: pluginData[0]\n        \x7d,\n        \x7b\n            type: \x27application/x-nacl\x27,\n            suffixes: \x27\x27,\n            description: \x27Native Client Executable\x27,\n            enabledPlugin: pluginData[2]\n        \x7d\n    ];\n    \n    const mockMimeTypeArray = () => \x7b\n        const mimeTypeArray = Object.create(MimeTypeArray.prototype);\n        \n        Object.defineProperty(mimeTypeArray, \x27length\x27, \x7b\n            value: mimeTypes.length,\n            writable: false,\n            enumerable: false,\n            configurable: false\n        \x7d);\n        \n        mimeTypes.forEach((data, index) => \x7b\n            const mimeType = Object.create(MimeType.prototype);\n            \n            Object.defineProperties(mimeType, \x7b\n                type: \x7b\n                    value: data.type,\n                    writable: false,\n                    enumerable: true,\n                    configurable: false\n                \x7d,\n                suffixes: \x7b\n                    value: data.suffixes,\n                    writable: false,\n                    enumerable: true,\n                    configurable: false\n                \x7d,\n                description: \x7b\n                    value: data.description,\n                    writable: false,\n                    enumerable: true,\n                    configurable: false\n                \x7d,\n                enabledPlugin: \x7b\n                    value: data.enabledPlugin,\n                    writable: false,\n                    enumerable: true,\n                    configurable: false\n                \x7d\n            \x7d);\n            \n            Object.defineProperty(mimeTypeArray, index, \x7b\n                value: mimeType,\n                writable: false,\n                enumerable: true,\n                configurable: false\n            \x7d);\n        \x7d);\n        \n        return mimeTypeArray;\n    \x7d;\n    \n    Object.defineProperty(navigator, \x27mimeTypes\x27, \x7b\n        get: mockMimeTypeArray,\n        enumerable: true,\n        configurable: false\n    \x7d);\n    \n    // ============================================\n    // 6. CHROME EXTENSION OBJECT\n    // ============================================\n    const chromeRuntime = \x7b\n        connect: function(extensionId, connectInfo) \x7b\n            return \x7b\n                onMessage: \x7b addListener: () => \x7b\x7d \x7d,\n                onDisconnect: \x7b addListener: () => \x7b\x7d \x7d,\n                postMessage: () => \x7b\x7d\n            \x7d;\n        \x7d,\n        sendMessage: function(extensionId, message, options, callback) \x7b\n            return Promise.resolve();\n        \x7d,\n        getURL: function(path) \x7b\n            return \x27chrome-extension://invalid/\x27 + path;\n        \x7d,\n        getManifest: function() \x7b\n            return \x7b\x7d;\n        \x7d,\n        id: \x27invalid\x27\n    \x7d;\n    \n    if (!window.chrome) \x7b\n        Object.defineProperty(window, \x27chrome\x27, \x7b\n            get: () => (\x7b\n                runtime: chromeRuntime,\n                loadTimes: () => (\x7b\x7d),\n                csi: () => (\x7b\x7d)\n            \x7d),\n            enumerable: true,\n            configurable: false\n        \x7d);\n    \x7d else \x7b\n        if (!window.chrome.runtime) \x7b\n            window.chrome.runtime = chromeRuntime;\n        \x7d\n    \x7d\n    \n    // ============================================\n    // 7. PERMISSIONS API FIX\n    // ============================================\n    const originalQuery = navigator.permissions.query;\n    navigator.permissions.query = function(parameters) \x7b\n        if (parameters.name === \x27notifications\x27) \x7b\n            return Promise.resolve(\x7b state: Notification.permission \x7d);\n        \x7d\n        if (parameters.name === \x27geolocation\x27) \x7b\n            return Promise.resolve(\x7b state: \x27denied\x27 \x7d);\n        \x7d\n        return originalQuery.call(navigator.permissions, parameters);\n    \x7d;\n    \n    // ============================================\n    // 8. LANGUAGES AND LOCALES\n    // ============================================\n    Object.defineProperty(navigator, \x27languages\x27, \x7b\n        get: () => [\x27",
  "\x27],\n        enumerable: true,\n        configurable: false\n    \x7d);\n    \n    Object.defineProperty(navigator, \x27language\x27, \x7b\n        get: () => \x27",
  "\x27,\n        enumerable: true,\n        configurable: false\n    \x7d);\n    \n    // ============================================\n    // 9. WEBGL MASKING (Critical for Detection)\n    // ============================================\n    const glVendor = \x27",
  "\x27;\n    const glRenderer = \x27",
  "\x27;\n    \n    const patchWebGL = () => \x7b\n        const getParameter = WebGLRenderingContext.prototype.getParameter;\n        WebGLRenderingContext.prototype.getParameter = function(parameter) \x7b\n            // 37445 = UNMASKED_VENDOR_WEBGL\n            // 37446 = UNMASKED_RENDERER_WEBGL\n            if (parameter === 37445) \x7b\n                return glVendor;\n            \x7d\n            if (parameter === 37446) \x7b\n                return glRenderer;\n            \x7d\n            return getParameter.call(this, parameter);\n        \x7d;\n    \x7d;\n    \n    const patchWebGL2 = () => \x7b\n        if (typeof WebGL2RenderingContext === \x27undefined\x27) return;\n        const getParameter = WebGL2RenderingContext.prototype.getParameter;\n        WebGL2RenderingContext.prototype.getParameter = function(parameter) \x7b\n            if (parameter === 37445) \x7b\n                return glVendor;\n            \x7d\n            if (parameter === 37446) \x7b\n                return glRenderer;\n            \x7d\n            return getParameter.call(this, parameter);\n        \x7d;\n    \x7d;\n    \n    patchWebGL();\n    patchWebGL2();\n    \n    // ============================================\n    // 10. CANVAS FINGERPRINT RANDOMIZATION\n    // ============================================\n    const originalToDataURL = HTMLCanvasElement.prototype.toDataURL;\n    HTMLCanvasElement.prototype.toDataURL = function(type, quality) \x7b\n        const ctx = this.getContext(\x272d\x27);\n        const imageData = ctx.getImageData(0, 0, this.width, this.height);\n        \n        // Slightly modify canvas to break fingerprinting\n        for (let i = 0; i < 100 && i < imageData.data.length; i += 4) \x7b\n            if (Math.random() > 0.95) \x7b\n                imageData.data[i] = (imageData.data[i] + Math.floor(Math.random() * 3) - 1) & 0xFF;\n            \x7d\n        \x7d\n        ctx.putImageData(imageData, 0, 0);\n        return originalToDataURL.call(this, type, quality);\n    \x7d;\n    \n    // ============================================\n    // 11. NAVIGATOR PROPERTIES\n    // ============================================\n    Object.defineProperty(navigator, \x27hardwareConcurrency\x27, \x7b\n        get: () => 8,\n        enumerable: true,\n        configurable: false\n    \x7d);\n    \n    Object.defineProperty(navigator, \x27deviceMemory\x27, \x7b\n        get: () => 8,\n        enumerable: true,\n        configurable: false\n    \x7d);\n    \n    Object.defineProperty(navigator, \x27maxTouchPoints\x27, \x7b\n        get: () => ",
  ",\n        enumerable: true,\n        configurable: false\n    \x7d);\n    \n    Object.defineProperty(navigator, \x27connection\x27, \x7b\n        get: () => (\x7b\n            downlink: 10,\n            effectiveType: \x274g\x27,\n            rtt: 50,\n            saveData: false,\n            onchange: null\n        \x7d),\n        enumerable: true,\n        configurable: false\n    \x7d);\n    \n    // ============================================\n    // 12. SCREEN PROPERTIES\n    // ============================================\n    Object.defineProperty(screen, \x27width\x27, \x7b\n        get: () => ",
  ",\n        enumerable: true,\n        configurable: false\n    \x7d);\n    \n    Object.defineProperty(screen, \x27height\x27, \x7b\n        get: () => ",
  ",\n        enumerable: true,\n        configurable: false\n    \x7d);\n    \n    Object.defineProperty(screen, \x27availWidth\x27, \x7b\n        get: () => ",
  ",\n        enumerable: true,\n        configurable: false\n    \x7d);\n    \n    Object.defineProperty(screen, \x27availHeight\x27, \x7b\n        get: () => ",
  " - 40,\n        enumerable: true,\n        configurable: false\n    \x7d);\n    \n    Object.defineProperty(screen, \x27devicePixelRatio\x27, \x7b\n        get: () => ",
  ",\n        enumerable: true,\n        configurable: false\n    \x7d);\n    \n    Object.defineProperty(screen, \x27colorDepth\x27, \x7b\n        get: () => 24,\n        enumerable: true,\n        configurable: false\n    \x7d);\n    \n    Object.defineProperty(screen, \x27pixelDepth\x27, \x7b\n        get: () => 24,\n        enumerable: true,\n        configurable: false\n    \x7d);\n    \n    // ============================================\n    // 13. TIMEZONE SPOOFING\n    // ============================================\n    const originalToLocaleString = Date.prototype.toLocaleString;\n    Date.prototype.toLocaleString = function(locales, options) \x7b\n        const opts = Object.assign(\x7b timeZone: \x27",
  "\x27 \x7d, options);\n        return originalToLocaleString.call(this, locales, opts);\n    \x7d;\n    \n    // ============================================\n    // 14. MEDIA DEVICES\n    // ============================================\n    if (navigator.mediaDevices) \x7b\n        const originalEnumerateDevices = navigator.mediaDevices.enumerateDevices;\n        navigator.mediaDevices.enumerateDevices = function() \x7b\n            return originalEnumerateDevices.call(this).then(devices => \x7b\n                return devices.map(device => (\x7b\n                    deviceId: device.deviceId.substring(0, 16) + \x27...\x27,\n                    groupId: device.groupId,\n                    kind: device.kind,\n                    label: device.label.replace(/.*/, \x27Device\x27),\n                    toJSON: () => (\x7b\x7d)\n                \x7d));\n            \x7d);\n        \x7d;\n    \x7d\n    \n    // ============================================\n    // 15. GEOLOCATION SPOOFING\n    // ============================================\n    if (navigator.geolocation) \x7b\n        const mockGeolocation = \x7b\n            getCurrentPosition: function(success, error) \x7b\n                setTimeout(() => \x7b\n                    success(\x7b\n                        coords: \x7b\n                            latitude: 40.7128 + (Math.random() - 0.5) * 0.1,\n                            longitude: -74.0060 + (Math.random() - 0.5) * 0.1,\n                            accuracy: 50,\n                            altitude: null,\n                            altitudeAccuracy: null,\n                            heading: null,\n                            speed: null\n                        \x7d,\n                        timestamp: Date.now()\n                    \x7d);\n                \x7d, 100);\n            \x7d,\n            watchPosition: function(success) \x7b\n                return this.getCurrentPosition(success);\n            \x7d,\n            clearWatch: function() \x7b\x7d\n        \x7d;\n        Object.defineProperty(navigator, \x27geolocation\x27, \x7b\n            get: () => mockGeolocation,\n            enumerable: true,\n            configurable: false\n        \x7d);\n    \x7d\n    \n    // ============================================\n    // 16. FETCH INTERCEPTION FOR HEADERS\n    // ============================================\n    const originalFetch = window.fetch;\n    window.fetch = function(input, init) \x7b\n        const headers = init && init.headers ? new Headers(init.headers) : new Headers();\n        \n        // Ensure proper headers\n        if (!headers.has(\x27User-Agent\x27)) \x7b\n            headers.set(\x27User-Agent\x27, userAgent);\n        \x7d\n        if (!headers.has(\x27Accept-Language\x27)) \x7b\n            headers.set(\x27Accept-Language\x27, \x27",
  "\x27);\n        \x7d\n        if (!headers.has(\x27Accept\x27)) \x7b\n            headers.set(\x27Accept\x27, \x27text/html,application/xhtml+xml,application/xml;q=0.9,*/*;q=0.8\x27);\n        \x7d\n        if (!headers.has(\x27Sec-Fetch-Dest\x27)) \x7b\n            headers.set(\x27Sec-Fetch-Dest\x27, \x27document\x27);\n        \x7d\n        if (!headers.has(\x27Sec-Fetch-Mode\x27)) \x7b\n            headers.set(\x27Sec-Fetch-Mode\x27, \x27navigate\x27);\n        \x7d\n        if (!headers.has(\x27Sec-Fetch-Site\x27)) \x7b\n            headers.set(\x27Sec-Fetch-Site\x27, \x27none\x27);\n        \x7d\n        \n        return originalFetch.call(this, input, Object.assign(\x7b\x7d, init, \x7b headers \x7d));\n    \x7d;\n    \n    // ============================================\n    // 17. XMLHTTPREQUEST INTERCEPTION\n    // ============================================\n    const originalSetRequestHeader = XMLHttpRequest.prototype.setRequestHeader;\n    XMLHttpRequest.prototype.setRequestHeader = function(header, value) \x7b\n        if (header === \x27User-Agent\x27) \x7b\n            value = userAgent;\n        \x7d\n        return originalSetRequestHeader.call(this, header, value);\n    \x7d;\n    \n    console.log(\x27[Stealth] All patches applied successfully\x27);\n\x7d)();\n"
]

/-- Sprintf argument list of `BuildStealthScript`, in source order. -/
def stealthArgs (config : StealthConfig) : List String := [
  config.UserAgent,
  config.Platform,
  config.VendorString,
  config.Language,
  config.Language,
  config.WebGLVendor,
  config.WebGLRenderer,
  toString config.MaxTouchPoints,
  toString config.ScreenWidth,
  toString config.ScreenHeight,
  toString config.ScreenWidth,
  toString config.ScreenHeight,
  formatFixed1 config.DevicePixelRatio,
  config.TimeZoneID,
  config.Language
]

/-- Function `BuildStealthScript` from part_003: the stealth injection script, a pure
Sprintf of the fixed template over the configuration fields. -/
def BuildStealthScript (config : StealthConfig) : String :=
  sprintfFill stealthChunks (stealthArgs config)

/-- Claim C8: two invocations of the synthesizer on configurations with
identical field values produce byte-identical script bodies. -/
theorem c8_synthesize_deterministic :
    ∀ c₁ c₂ : StealthConfig,
      c₁.UserAgent = c₂.UserAgent → c₁.Platform = c₂.Platform →
      c₁.VendorString = c₂.VendorString → c₁.Language = c₂.Language →
      c₁.TimeZoneID = c₂.TimeZoneID →
      c₁.DevicePixelRatio = c₂.DevicePixelRatio →
      c₁.ScreenWidth = c₂.ScreenWidth → c₁.ScreenHeight = c₂.ScreenHeight →
      c₁.WebGLVendor = c₂.WebGLVendor → c₁.WebGLRenderer = c₂.WebGLRenderer →
      c₁.MaxTouchPoints = c₂.MaxTouchPoints →
      c₁.HasMediaDevices = c₂.HasMediaDevices →
      c₁.HasGeolocation = c₂.HasGeolocation →
      BuildStealthScript c₁ = BuildStealthScript c₂ := by
  intro c₁ c₂
  obtain ⟨u₁, p₁, vs₁, l₁, tz₁, dpr₁, sw₁, sh₁, gv₁, gr₁, mt₁, hm₁, hg₁⟩ := c₁
  obtain ⟨u₂, p₂, vs₂, l₂, tz₂, dpr₂, sw₂, sh₂, gv₂, gr₂, mt₂, hm₂, hg₂⟩ := c₂
  intro h₁ h₂ h₃ h₄ h₅ h₆ h₇ h₈ h₉ h₁₀ h₁₁ h₁₂ h₁₃
  simp_all only []

/-- Witness for C8: the default configuration twice, with every field
equality discharged by reflexivity. -/
theorem c8_witness :
    BuildStealthScript DefaultStealthConfig = BuildStealthScript DefaultStealthConfig :=
  c8_synthesize_deterministic DefaultStealthConfig DefaultStealthConfig
    rfl rfl rfl rfl rfl rfl rfl rfl rfl rfl rfl rfl rfl
